import Mathlib

/-!
Shallow embedding of `agents.py` from the Resume-Restructuring-Agent
repository.  The pipeline consists of five tool functions
(`read_files_from_data_directory`, `parse_resume`, `restructure_resume`,
`write_resume_to_file`, `create_pdf_from_text`) and a straight-line
`execute_task` method that invokes them in order.  Filesystem state is
modelled explicitly, network services (LlamaParse, the Ollama completion
endpoint) are modelled as oracle functions, and Python string operations
(`lower`, `endswith`, `strip`, file-line iteration, `rsplit`) are embedded
as structurally recursive functions on `String.data`, faithful to Python
semantics.
-/

/-- Python `str.lower()`: lower-case every character. -/
def pyLower (s : String) : String := ⟨s.data.map Char.toLower⟩

/-- Python `str.endswith(suff)`: the last `suff.length` characters equal `suff`. -/
def pyEndsWith (s suff : String) : Bool :=
  s.data.drop (s.data.length - suff.data.length) == suff.data

/-- Characters stripped by Python `str.strip()` with no argument. -/
def isPyWhitespace (c : Char) : Bool :=
  c == ' ' || c == '\t' || c == '\n' || c == '\r' || c == '\x0b' || c == '\x0c'

/-- Python `str.strip()`: remove leading and trailing whitespace. -/
def pyStrip (s : String) : String :=
  ⟨(((s.data.dropWhile isPyWhitespace).reverse.dropWhile isPyWhitespace).reverse)⟩

/-- Helper for `pyLines`: accumulate characters until a newline, emitting each
line with its trailing newline kept, exactly as Python file iteration does. -/
def splitLinesAux : List Char → List Char → List String
  | [], acc => if acc.isEmpty then [] else [⟨acc.reverse⟩]
  | '\n' :: rest, acc => ⟨(('\n' :: acc).reverse)⟩ :: splitLinesAux rest []
  | c :: rest, acc => splitLinesAux rest (c :: acc)

/-- Python `for line in f` over a file whose content is `s`: the list of lines,
each keeping its trailing newline; a final fragment without a newline is its
own line; the empty file yields no lines. -/
def pyLines (s : String) : List String := splitLinesAux s.data []

/-- Python `s.rsplit(".", 1)[0]`: everything before the last dot, or the whole
string when it has no dot. -/
def pyRsplitDotHead (s : String) : String :=
  if s.data.contains '.' then ⟨((s.data.reverse.dropWhile (fun c => c != '.')).tail).reverse⟩
  else s

/-- A document as produced by `SimpleDirectoryReader.load_data()`: the source
file name (`doc.metadata['file_name']`) and the loaded text. -/
structure Document where
  file_name : String
  text : String
deriving DecidableEq

/-- The predicate `doc.metadata['file_name'].lower().endswith('.pdf')`. -/
def isPdfDoc (d : Document) : Bool := pyEndsWith (pyLower d.file_name) ".pdf"

/-- The predicate `doc.metadata['file_name'].lower().endswith('.txt')`. -/
def isTxtDoc (d : Document) : Bool := pyEndsWith (pyLower d.file_name) ".txt"

/-- `read_files_from_data_directory` from `agents.py`: over the documents
loaded from the `data` directory, take the first whose file name ends in
`.pdf` (case-insensitively) as the resume and the first ending in `.txt` as
the job description; raise `ValueError` (modelled as `.error`) when either is
missing. -/
def read_files_from_data_directory (documents : List Document) :
    Except String (Document × Document) :=
  let resume_doc := documents.find? isPdfDoc
  let job_description_doc := documents.find? isTxtDoc
  match resume_doc, job_description_doc with
  | some r, some j => .ok (r, j)
  | _, _ =>
    .error "Could not find both resume (PDF) and job description (TXT) in the data directory."

/-- A model of the local filesystem: the set of directories that exist and a
map from file path to textual content, as an association list. -/
structure FileSystem where
  dirs : List String
  files : List (String × String)
deriving DecidableEq

/-- Opening a path for writing (`open(path, "w")` / `"wb"`): the new content
replaces any previous file at that path. -/
def FileSystem.writeFile (fs : FileSystem) (path content : String) : FileSystem :=
  { fs with files := (path, content) :: fs.files.filter (fun kv => kv.1 != path) }

/-- `os.remove(path)`: the file at `path` is gone afterwards. -/
def FileSystem.removeFile (fs : FileSystem) (path : String) : FileSystem :=
  { fs with files := fs.files.filter (fun kv => kv.1 != path) }

/-- Reading a file: `some content` when the path exists, `none` otherwise
(Python would raise `FileNotFoundError`). -/
def FileSystem.readFile (fs : FileSystem) (path : String) : Option String :=
  (fs.files.find? (fun kv => kv.1 == path)).map (fun kv => kv.2)

/-- Whether a file exists at `path`. -/
def FileSystem.fileExists (fs : FileSystem) (path : String) : Bool :=
  fs.files.any (fun kv => kv.1 == path)

/-- `os.makedirs(dir, exist_ok=True)`: ensure the directory exists; never an
error when it is already present. -/
def FileSystem.makeDirs (fs : FileSystem) (dir : String) : FileSystem :=
  if fs.dirs.contains dir then fs else { fs with dirs := dir :: fs.dirs }

/-- `parse_resume` from `agents.py`: write `resume_content` to the transient
file `temp_resume.pdf`, invoke the LlamaParse service on that file (modelled
as the oracle `llamaParse` applied to the written content; an exception from
the service is the `.error` case), then `os.remove` the transient file and
return the parsed text.  In Python the `os.remove` line is only reached when
`llama_parse.parse` returns normally, so on an exception the transient file
is left on disk; the match below mirrors that control flow exactly. -/
def parse_resume (llamaParse : String → Except String String) (fs : FileSystem)
    (resume_content : String) : Except String String × FileSystem :=
  let temp_file := "temp_resume.pdf"
  let fs1 := fs.writeFile temp_file resume_content
  match llamaParse resume_content with
  | .ok text => (.ok text, fs1.removeFile temp_file)
  | .error e => (.error e, fs1)

/-- The fixed text of the f-string prompt in `restructure_resume`, before the
`{resume}` placeholder. -/
def promptIntro : String :=
  "\n    You are a professional resume writer. Your task is to restructure the given resume to better match the provided job description.\n    Focus on highlighting relevant skills and experiences, and adjusting the language to align with the job requirements.\n    Resume:\n    "

/-- The fixed text of the prompt between the `{resume}` and
`{job_description}` placeholders. -/
def promptMiddle : String := "\n    Job Description:\n    "

/-- The fixed text of the prompt after the `{job_description}` placeholder. -/
def promptTail : String := "\n    Please provide the restructured resume:\n    "

/-- The full prompt built by the f-string in `restructure_resume`: the fixed
template with the two inputs substituted verbatim. -/
def restructure_prompt (resume job_description : String) : String :=
  promptIntro ++ resume ++ promptMiddle ++ job_description ++ promptTail

/-- The record of prompts sent to the completion endpoint, used to observe
how many times and with what argument `worker_llm.complete` is called. -/
structure CompletionLog where
  calls : List String
deriving DecidableEq

/-- `worker_llm.complete(prompt)`: one synchronous call to the completion
API, modelled by the oracle `model`; the call is appended to the log. -/
def llmComplete (model : String → String) (log : CompletionLog) (prompt : String) :
    String × CompletionLog :=
  (model prompt, ⟨log.calls ++ [prompt]⟩)

/-- `restructure_resume` from `agents.py`: build the prompt from the fixed
template and the two inputs, call `worker_llm.complete` once, and return
`response.text` unchanged. -/
def restructure_resume (model : String → String) (log : CompletionLog)
    (resume job_description : String) : String × CompletionLog :=
  let prompt := restructure_prompt resume job_description
  let result := llmComplete model log prompt
  (result.1, result.2)

/-- The wall-clock instant `datetime.now()` truncated to the second. -/
structure DateTime where
  year : Nat
  month : Nat
  day : Nat
  hour : Nat
  minute : Nat
  second : Nat
deriving DecidableEq

/-- Zero-pad a number to two digits, as `strftime` field formatting does. -/
def pad2 (n : Nat) : String := if n < 10 then "0" ++ toString n else toString n

/-- Zero-pad a number to four digits for the `%Y` field. -/
def pad4 (n : Nat) : String :=
  if n < 10 then "000" ++ toString n
  else if n < 100 then "00" ++ toString n
  else if n < 1000 then "0" ++ toString n
  else toString n

/-- `datetime.now().strftime("%Y%m%d_%H%M%S")`. -/
def strftimeCompact (t : DateTime) : String :=
  pad4 t.year ++ pad2 t.month ++ pad2 t.day ++ "_" ++ pad2 t.hour ++ pad2 t.minute ++ pad2 t.second

/-- `write_resume_to_file` from `agents.py`: ensure `./output` exists, build
the timestamped file name, write `resume_content` to it in text mode, and
return the path.  `now` is the wall-clock reading taken during the call. -/
def write_resume_to_file (fs : FileSystem) (now : DateTime) (resume_content : String) :
    String × FileSystem :=
  let output_dir := "./output"
  let fs1 := fs.makeDirs output_dir
  let timestamp := strftimeCompact now
  let file_name := "restructured_resume_" ++ timestamp ++ ".txt"
  let file_path := output_dir ++ "/" ++ file_name
  (file_path, fs1.writeFile file_path resume_content)

/-- The FPDF document state observable through the calls `agents.py` makes:
the number of explicit pages added and the list of rendered text cells in
order.  FPDF's automatic page breaks can only add further pages, so the
modelled count is a lower bound on the physical page count. -/
structure PDFDoc where
  pages : Nat
  cells : List String
deriving DecidableEq

/-- `FPDF()`: a fresh document with no pages and no cells. -/
def fpdfInit : PDFDoc := { pages := 0, cells := [] }

/-- `pdf.add_page()`. -/
def PDFDoc.addPage (p : PDFDoc) : PDFDoc := { p with pages := p.pages + 1 }

/-- `pdf.cell(0, 10, txt=t, ln=True)`: render one text cell. -/
def PDFDoc.cell (p : PDFDoc) (t : String) : PDFDoc := { p with cells := p.cells ++ [t] }

/-- The bytes `pdf.output(path)` writes, modelled as a rendering determined
by the document state. -/
def pdfRender (p : PDFDoc) : String :=
  p.cells.foldl (fun acc c => acc ++ c ++ "\n") (toString p.pages ++ "\n")

/-- `create_pdf_from_text` from `agents.py`: open the text file (missing file
is a `FileNotFoundError`, the `.error` case), add one page, render one cell
per file line with the line stripped, derive the PDF path by
`text_file_path.rsplit(".", 1)[0] + ".pdf"`, write the PDF there and return
the path together with the document state and the updated filesystem. -/
def create_pdf_from_text (fs : FileSystem) (text_file_path : String) :
    Except String (String × PDFDoc × FileSystem) :=
  match fs.readFile text_file_path with
  | none => .error "FileNotFoundError"
  | some content =>
    let pdf0 := fpdfInit.addPage
    let pdf := (pyLines content).foldl (fun p line => p.cell (pyStrip line)) pdf0
    let pdf_file_path := pyRsplitDotHead text_file_path ++ ".pdf"
    .ok (pdf_file_path, pdf, fs.writeFile pdf_file_path (pdfRender pdf))

/-- `Except.is_ok` as a boolean, for stating file-cleanup behaviour. -/
def isOkE {E A : Type} : Except E A → Bool
  | .ok _ => true
  | .error _ => false

/-- The five tools registered on `ResumeWorkerAgent`, in the order
`execute_task` invokes them. -/
inductive StepName
  | readFilesStep
  | parseStep
  | restructureStep
  | writeStep
  | pdfStep
deriving DecidableEq

/-- The canonical invocation order of `execute_task`. -/
def stepOrder : List StepName :=
  [.readFilesStep, .parseStep, .restructureStep, .writeStep, .pdfStep]

/-- The return string of `ResumeWorkerAgent.execute_task` on success. -/
def successMessage (textPath pdfPath : String) : String :=
  "Restructured resume saved as text file: " ++ textPath ++ "\nPDF version saved as: " ++ pdfPath

/-- `ResumeWorkerAgent.execute_task` from `agents.py`: run the five tools in
a straight line, each consuming the previous step's result; a Python
exception in any tool (the `.error` case of that tool's oracle) propagates
out of `execute_task` at that point, so no later tool runs.  The second
component records which tools were invoked, in order. -/
def execute_task {E : Type}
    (readFilesTool : Except E (Document × Document))
    (parseTool : String → Except E String)
    (restructureTool : String → String → Except E String)
    (writeTool : String → Except E String)
    (pdfTool : String → Except E String) :
    Except E String × List StepName :=
  match readFilesTool with
  | .error e => (.error e, [.readFilesStep])
  | .ok (resume_doc, job_description_doc) =>
    match parseTool resume_doc.text with
    | .error e => (.error e, [.readFilesStep, .parseStep])
    | .ok parsed_resume =>
      match restructureTool parsed_resume job_description_doc.text with
      | .error e => (.error e, [.readFilesStep, .parseStep, .restructureStep])
      | .ok restructured_resume =>
        match writeTool restructured_resume with
        | .error e => (.error e, [.readFilesStep, .parseStep, .restructureStep, .writeStep])
        | .ok text_file_path =>
          match pdfTool text_file_path with
          | .error e => (.error e, stepOrder)
          | .ok pdf_file_path => (.ok (successMessage text_file_path pdf_file_path), stepOrder)

/-- A filesystem with no directories and no files. -/
def emptyFS : FileSystem := ⟨[], []⟩

/-- A sample wall-clock reading. -/
def sampleTime : DateTime := ⟨2024, 9, 7, 15, 4, 5⟩

/-- A filesystem holding a text file whose middle line is blank. -/
def blankLineFS : FileSystem := ⟨[], [("r.txt", "a\n\nb")]⟩

/-- A filesystem holding a text file with an indented line and a blank line. -/
def indentFS : FileSystem := ⟨[], [("f.txt", "  a\n\nb")]⟩

/-- A filesystem holding a two-line text file. -/
def twoLineFS : FileSystem := ⟨[], [("doc.txt", "x\ny\n")]⟩

/-- When filtering keeps exactly one element, `find?` returns it: the unique
match is also the first match. -/
theorem find?_of_filter_eq_singleton {α : Type} (p : α → Bool) :
    ∀ (l : List α) (a : α), l.filter p = [a] → l.find? p = some a := by
  intro l
  induction l with
  | nil => intro a h; simp at h
  | cons x xs ih =>
    intro a h
    by_cases hx : p x = true
    · rw [List.filter_cons_of_pos hx] at h
      rw [List.find?_cons_of_pos xs hx]
      exact congrArg some (List.cons.inj h).1
    · rw [List.filter_cons_of_neg hx] at h
      rw [List.find?_cons_of_neg xs hx]
      exact ih a h

/-- Claim C1: for every directory whose listing contains exactly one file
ending in `.pdf` and exactly one ending in `.txt` (case-insensitively),
`read_files_from_data_directory` returns that pair — the `.pdf` match as the
resume and the `.txt` match as the job description — regardless of any other
file types present. -/
theorem read_files_unique_pair (documents : List Document) (r j : Document)
    (hr : documents.filter isPdfDoc = [r]) (hj : documents.filter isTxtDoc = [j]) :
    read_files_from_data_directory documents = .ok (r, j) := by
  unfold read_files_from_data_directory
  rw [find?_of_filter_eq_singleton isPdfDoc documents r hr,
      find?_of_filter_eq_singleton isTxtDoc documents j hj]

/-- Witness for C1: a directory with one PDF (upper-case extension), one
docx, and one txt. -/
theorem read_files_unique_pair_witness :
    read_files_from_data_directory
      [⟨"Resume.PDF", "RAW"⟩, ⟨"notes.docx", "NOTES"⟩, ⟨"jd.txt", "JOB"⟩] =
      .ok (⟨"Resume.PDF", "RAW"⟩, ⟨"jd.txt", "JOB"⟩) :=
  read_files_unique_pair _ _ _ (by decide) (by decide)

/-- Claim C2: for every directory whose listing contains no file ending in
`.pdf`, or no file ending in `.txt` (case-insensitively),
`read_files_from_data_directory` raises `ValueError` (the `.error` result)
rather than returning any pair. -/
theorem read_files_missing_errors (documents : List Document)
    (h : documents.all (fun d => !isPdfDoc d) = true ∨
         documents.all (fun d => !isTxtDoc d) = true) :
    read_files_from_data_directory documents =
      .error "Could not find both resume (PDF) and job description (TXT) in the data directory." := by
  unfold read_files_from_data_directory
  rcases h with h | h
  · have hf : documents.find? isPdfDoc = none := by
      rw [List.find?_eq_none]
      intro x hx
      simpa using List.all_eq_true.mp h x hx
    rw [hf]
  · have hf : documents.find? isTxtDoc = none := by
      rw [List.find?_eq_none]
      intro x hx
      simpa using List.all_eq_true.mp h x hx
    rw [hf]
    cases documents.find? isPdfDoc <;> rfl

/-- Witness for C2: a directory with a job description but no PDF. -/
theorem read_files_missing_errors_witness :
    read_files_from_data_directory [⟨"jd.txt", "JOB"⟩, ⟨"notes.docx", "NOTES"⟩] =
      .error "Could not find both resume (PDF) and job description (TXT) in the data directory." :=
  read_files_missing_errors _ (Or.inl (by decide))

/-- After writing a file, it exists. -/
theorem fileExists_writeFile (fs : FileSystem) (path content : String) :
    (fs.writeFile path content).fileExists path = true := by
  simp [FileSystem.writeFile, FileSystem.fileExists]

/-- After removing a file, it no longer exists. -/
theorem fileExists_removeFile (fs : FileSystem) (path : String) :
    (fs.removeFile path).fileExists path = false := by
  simp [FileSystem.removeFile, FileSystem.fileExists, List.any_eq_true, List.mem_filter]

/-- Reading a freshly written path yields the written content. -/
theorem readFile_writeFile (fs : FileSystem) (path content : String) :
    (fs.writeFile path content).readFile path = some content := by
  simp [FileSystem.writeFile, FileSystem.readFile, List.find?]

/-- After `makeDirs`, the directory is present. -/
theorem contains_makeDirs (fs : FileSystem) (dir : String) :
    (fs.makeDirs dir).dirs.contains dir = true := by
  unfold FileSystem.makeDirs
  split
  · assumption
  · simp

/-- Claim C4: `parse_resume` returns the parsing service's result unchanged,
and the transient file `temp_resume.pdf` is deleted exactly when the
invocation returns successfully: it is absent on success, and left behind
when the invocation raises (the deletion is not performed on that path). -/
theorem parse_resume_temp_file_leak (llamaParse : String → Except String String)
    (fs : FileSystem) (resume_content : String) :
    (parse_resume llamaParse fs resume_content).1 = llamaParse resume_content ∧
    (parse_resume llamaParse fs resume_content).2.fileExists "temp_resume.pdf" =
      !isOkE (llamaParse resume_content) := by
  unfold parse_resume
  cases h : llamaParse resume_content with
  | ok t =>
    refine ⟨rfl, ?_⟩
    simp only [isOkE, Bool.not_true]
    exact fileExists_removeFile _ _
  | error e =>
    refine ⟨rfl, ?_⟩
    simp only [isOkE, Bool.not_false]
    exact fileExists_writeFile _ _ _

/-- Claim C8: `restructure_resume` embeds the resume and job description,
unmodified, into the one fixed prompt template, calls the completion API
exactly once (the call log grows by exactly that one prompt), and returns
the raw response text with no validation, truncation, or retry. -/
theorem restructure_resume_single_raw_call (model : String → String)
    (log : CompletionLog) (resume job_description : String) :
    (restructure_resume model log resume job_description).1 =
      model (restructure_prompt resume job_description) ∧
    (restructure_resume model log resume job_description).2.calls =
      log.calls ++ [restructure_prompt resume job_description] ∧
    ∃ a b c, restructure_prompt resume job_description =
      a ++ resume ++ b ++ job_description ++ c :=
  ⟨rfl, rfl, promptIntro, promptMiddle, promptTail, rfl⟩

/-- Writing a file leaves the set of directories unchanged. -/
theorem dirs_writeFile (fs : FileSystem) (path content : String) :
    (fs.writeFile path content).dirs = fs.dirs := rfl

/-- Concatenation shape of the output path: joining `./output` with the
timestamped file name yields the single path under `./output/`. -/
theorem outputPath_shape (ts : String) :
    "./output" ++ "/" ++ ("restructured_resume_" ++ ts ++ ".txt") =
    "./output/restructured_resume_" ++ ts ++ ".txt" := by
  apply String.ext
  simp only [String.data_append, List.append_assoc]
  rw [← List.append_assoc, ← List.append_assoc]
  congr 1

/-- Claim C6 (amended): `write_resume_to_file` creates the output directory
if it is absent, and after a successful write the returned path exists and
holds exactly the input text — hence the file is non-empty precisely when
the input text is non-empty (for the empty input the file exists but is
empty). -/
theorem write_resume_creates_dir_and_persists (fs : FileSystem) (now : DateTime)
    (resume_content : String) :
    (write_resume_to_file fs now resume_content).2.dirs.contains "./output" = true ∧
    (write_resume_to_file fs now resume_content).2.readFile
      (write_resume_to_file fs now resume_content).1 = some resume_content := by
  constructor
  · simp only [write_resume_to_file]
    rw [dirs_writeFile]
    exact contains_makeDirs fs "./output"
  · simp only [write_resume_to_file]
    exact readFile_writeFile _ _ _

/-- Counterexample to C6 as stated: on the empty input text the write
succeeds but the file at the returned path is empty, so the returned path is
not non-empty for every input. -/
theorem write_resume_empty_file_counterexample :
    (write_resume_to_file emptyFS sampleTime "").2.readFile
      (write_resume_to_file emptyFS sampleTime "").1 = some "" ∧
    ¬ ∃ content, (write_resume_to_file emptyFS sampleTime "").2.readFile
        (write_resume_to_file emptyFS sampleTime "").1 = some content ∧ content ≠ "" := by
  constructor
  · simp only [write_resume_to_file]
    exact readFile_writeFile _ _ _
  · rintro ⟨c, hc, hne⟩
    simp only [write_resume_to_file] at hc
    rw [readFile_writeFile] at hc
    exact hne (Option.some.inj hc).symm

/-- Claim C7: round-trip — after `write_resume_to_file` returns a path,
reading that path back yields content identical to the input text: the
rewriter output is persisted verbatim. -/
theorem write_resume_round_trip (fs : FileSystem) (now : DateTime) (content : String) :
    (write_resume_to_file fs now content).2.readFile
      (write_resume_to_file fs now content).1 = some content := by
  simp only [write_resume_to_file]
  exact readFile_writeFile _ _ _

/-- Claim C10: the path returned by `write_resume_to_file` is determined
solely by the wall-clock time truncated to the second, with the shape
`./output/restructured_resume_YYYYMMDD_HHMMSS.txt`; two calls sharing that
second return the same path regardless of filesystem state or content, and
the later call silently overwrites the earlier call's file. -/
theorem write_resume_path_timestamp_only (fs fs2 : FileSystem) (now : DateTime)
    (c1 c2 : String) :
    (write_resume_to_file fs now c1).1 =
      "./output/restructured_resume_" ++ strftimeCompact now ++ ".txt" ∧
    (write_resume_to_file fs now c1).1 = (write_resume_to_file fs2 now c2).1 ∧
    (write_resume_to_file (write_resume_to_file fs now c1).2 now c2).2.readFile
      (write_resume_to_file fs now c1).1 = some c2 := by
  refine ⟨?_, rfl, ?_⟩
  · simp only [write_resume_to_file]
    exact outputPath_shape _
  · simp only [write_resume_to_file]
    exact readFile_writeFile _ _ _

/-- Claim C3: `execute_task` invokes the five tools exactly once each in the
fixed order read-files, parse, restructure, write, create-PDF, with no
branching or looping; when a step raises, the exception propagates out (the
result is that step's error), no step is retried, and no later step runs
(the trace stops at the failing step).  The six conjuncts cover every
possible execution exhaustively: the one success scenario and the five
single-failure scenarios. -/
theorem execute_task_linear_once {E : Type}
    (rf : Except E (Document × Document)) (pt : String → Except E String)
    (rt : String → String → Except E String) (wt : String → Except E String)
    (ct : String → Except E String) :
    (∀ e, rf = .error e →
      execute_task rf pt rt wt ct = (.error e, [StepName.readFilesStep])) ∧
    (∀ d1 d2 e, rf = .ok (d1, d2) → pt d1.text = .error e →
      execute_task rf pt rt wt ct =
        (.error e, [StepName.readFilesStep, StepName.parseStep])) ∧
    (∀ d1 d2 s1 e, rf = .ok (d1, d2) → pt d1.text = .ok s1 →
      rt s1 d2.text = .error e →
      execute_task rf pt rt wt ct =
        (.error e, [StepName.readFilesStep, StepName.parseStep, StepName.restructureStep])) ∧
    (∀ d1 d2 s1 s2 e, rf = .ok (d1, d2) → pt d1.text = .ok s1 →
      rt s1 d2.text = .ok s2 → wt s2 = .error e →
      execute_task rf pt rt wt ct =
        (.error e, [StepName.readFilesStep, StepName.parseStep, StepName.restructureStep,
          StepName.writeStep])) ∧
    (∀ d1 d2 s1 s2 p1 e, rf = .ok (d1, d2) → pt d1.text = .ok s1 →
      rt s1 d2.text = .ok s2 → wt s2 = .ok p1 → ct p1 = .error e →
      execute_task rf pt rt wt ct = (.error e, stepOrder)) ∧
    (∀ d1 d2 s1 s2 p1 p2, rf = .ok (d1, d2) → pt d1.text = .ok s1 →
      rt s1 d2.text = .ok s2 → wt s2 = .ok p1 → ct p1 = .ok p2 →
      execute_task rf pt rt wt ct = (.ok (successMessage p1 p2), stepOrder)) := by
  refine ⟨?_, ?_, ?_, ?_, ?_, ?_⟩
  · intro e h1
    subst h1
    rfl
  · intro d1 d2 e h1 h2
    subst h1
    simp [execute_task, h2]
  · intro d1 d2 s1 e h1 h2 h3
    subst h1
    simp [execute_task, h2, h3]
  · intro d1 d2 s1 s2 e h1 h2 h3 h4
    subst h1
    simp [execute_task, h2, h3, h4]
  · intro d1 d2 s1 s2 p1 e h1 h2 h3 h4 h5
    subst h1
    simp [execute_task, h2, h3, h4, h5]
  · intro d1 d2 s1 s2 p1 p2 h1 h2 h3 h4 h5
    subst h1
    simp [execute_task, h2, h3, h4, h5]

/-- Witness for C3: an all-successful run with constant tool oracles hits
all five steps in order and returns the success message. -/
theorem execute_task_linear_once_witness :
    execute_task (E := String)
      (.ok (⟨"resume.pdf", "RAW"⟩, ⟨"jd.txt", "JOB"⟩))
      (fun _ => .ok "PARSED") (fun _ _ => .ok "REWRITTEN")
      (fun _ => .ok "out.txt") (fun _ => .ok "out.pdf") =
      (.ok (successMessage "out.txt" "out.pdf"), stepOrder) :=
  (execute_task_linear_once _ _ _ _ _).2.2.2.2.2
    ⟨"resume.pdf", "RAW"⟩ ⟨"jd.txt", "JOB"⟩ "PARSED" "REWRITTEN" "out.txt" "out.pdf"
    rfl rfl rfl rfl rfl

/-- Folding the per-line `cell` call over a list of lines appends one
stripped cell per line and leaves the page count unchanged. -/
theorem foldl_cell_spec (ls : List String) (p : PDFDoc) :
    (ls.foldl (fun q line => q.cell (pyStrip line)) p).cells = p.cells ++ ls.map pyStrip ∧
    (ls.foldl (fun q line => q.cell (pyStrip line)) p).pages = p.pages := by
  induction ls generalizing p with
  | nil => simp
  | cons x xs ih =>
    constructor
    · rw [List.foldl_cons, (ih (p.cell (pyStrip x))).1]
      simp [PDFDoc.cell]
    · rw [List.foldl_cons, (ih (p.cell (pyStrip x))).2]
      rfl

/-- Claim C9 (implicit): `create_pdf_from_text` strips leading and trailing
whitespace from every line before rendering it and renders one cell per line
of the file, including empty and whitespace-only lines (which become empty
cells); the cell count therefore equals the total line count, and the PDF
does not preserve indentation or blank-line structure. -/
theorem create_pdf_strips_each_line (fs : FileSystem) (path content : String)
    (pdfPath : String) (pdf : PDFDoc) (fs' : FileSystem)
    (hread : fs.readFile path = some content)
    (hout : create_pdf_from_text fs path = .ok (pdfPath, pdf, fs')) :
    pdf.cells = (pyLines content).map pyStrip ∧
    pdf.cells.length = (pyLines content).length ∧
    pdf.pages = 1 := by
  unfold create_pdf_from_text at hout
  rw [hread] at hout
  simp only [Except.ok.injEq, Prod.mk.injEq] at hout
  obtain ⟨h1, h2, h3⟩ := hout
  subst h2
  refine ⟨?_, ?_, ?_⟩
  · rw [(foldl_cell_spec _ _).1]
    rfl
  · rw [(foldl_cell_spec _ _).1]
    simp [fpdfInit, PDFDoc.addPage]
  · rw [(foldl_cell_spec _ _).2]
    rfl

/-- Witness for C9: the file `"  a\n\nb"` has three lines (one indented, one
blank, one plain); the PDF renders exactly the three stripped cells. -/
theorem create_pdf_strips_each_line_witness :
    (PDFDoc.mk 1 ["a", "", "b"]).cells = (pyLines "  a\n\nb").map pyStrip ∧
    (PDFDoc.mk 1 ["a", "", "b"]).cells.length = (pyLines "  a\n\nb").length ∧
    (PDFDoc.mk 1 ["a", "", "b"]).pages = 1 :=
  create_pdf_strips_each_line indentFS "f.txt" "  a\n\nb" "f.pdf" _
    (indentFS.writeFile "f.pdf" "1\na\n\nb\n") (by decide) rfl

/-- Counterexample to C5 as stated: the file `"a\n\nb"` has two non-empty
lines, yet the produced PDF has three rendered cells (the blank line gets an
empty cell), so the cell count is not the non-empty line count. -/
theorem create_pdf_nonempty_count_counterexample :
    ((pyLines "a\n\nb").filter (fun l => pyStrip l != "")).length = 2 ∧
    create_pdf_from_text blankLineFS "r.txt" =
      .ok ("r.pdf", PDFDoc.mk 1 ["a", "", "b"],
        blankLineFS.writeFile "r.pdf" "1\na\n\nb\n") ∧
    (PDFDoc.mk 1 ["a", "", "b"]).cells.length ≠ 2 :=
  ⟨by decide, rfl, by decide⟩

/-- Claim C5 (amended): for every text file, `create_pdf_from_text` produces
a PDF with at least one page and exactly one rendered text cell per line of
the file — the total line count, not the non-empty line count — and returns
a path derived from the text file path by replacing its extension with
`.pdf`. -/
theorem create_pdf_page_cells_path (fs : FileSystem) (path content : String)
    (pdfPath : String) (pdf : PDFDoc) (fs' : FileSystem)
    (hread : fs.readFile path = some content)
    (hout : create_pdf_from_text fs path = .ok (pdfPath, pdf, fs')) :
    1 ≤ pdf.pages ∧ pdf.cells.length = (pyLines content).length ∧
    pdfPath = pyRsplitDotHead path ++ ".pdf" := by
  unfold create_pdf_from_text at hout
  rw [hread] at hout
  simp only [Except.ok.injEq, Prod.mk.injEq] at hout
  obtain ⟨h1, h2, h3⟩ := hout
  subst h2
  refine ⟨?_, ?_, h1.symm⟩
  · rw [(foldl_cell_spec _ _).2]
    simp [fpdfInit, PDFDoc.addPage]
  · rw [(foldl_cell_spec _ _).1]
    simp [fpdfInit, PDFDoc.addPage]

/-- Witness for C5 (amended): a two-line file yields one page, two cells,
and the `.pdf`-derived path. -/
theorem create_pdf_page_cells_path_witness :
    1 ≤ (PDFDoc.mk 1 ["x", "y"]).pages ∧
    (PDFDoc.mk 1 ["x", "y"]).cells.length = (pyLines "x\ny\n").length ∧
    ("doc.pdf" : String) = pyRsplitDotHead "doc.txt" ++ ".pdf" :=
  create_pdf_page_cells_path twoLineFS "doc.txt" "x\ny\n" "doc.pdf" _
    (twoLineFS.writeFile "doc.pdf" "1\nx\ny\n") (by decide) rfl
